import Mathlib

/-!
Shallow embedding of the SurfaceFlinger scheduling / transaction-commit core
(services/surfaceflinger/SurfaceFlinger.h) and proofs of the spec's claims
about it.  Inline code from the header is translated directly; behaviour whose
implementation lives outside the examined header is modelled from the spec and
marked as such in the doc comment of the corresponding definition.
-/

set_option autoImplicit false

/-- `LayerVector::StateSet`: the which-set tag carried by a `SurfaceFlinger::State`
snapshot (`Invalid`, `Current` or `Drawing`). -/
inductive StateSet where
  | Invalid
  | Current
  | Drawing
deriving DecidableEq, Repr

/-- `SurfaceFlinger::State` (SurfaceFlinger.h:403-427).  The contents of
`layersSortedByZ` (a `LayerVector`), `displays` (a keyed vector of display
state) and `colorMatrix` (a `mat4`) are opaque to the copy semantics under
study, so they are carried as type parameters `α`, `β`, `γ`. -/
structure State (α β γ : Type) where
  stateSet : StateSet
  layersSortedByZ : α
  displays : β
  colorMatrixChanged : Bool
  colorMatrix : γ
deriving DecidableEq, Repr

/-- The `State(LayerVector::StateSet)` constructor (SurfaceFlinger.h:405) plus
the in-class member initializers: `stateSet` is fixed at construction and
`colorMatrixChanged` starts `true` (SurfaceFlinger.h:422). -/
def State.ofSet {α β γ : Type} (set : StateSet) (l : α) (d : β) (m : γ) : State α β γ :=
  { stateSet := set
    layersSortedByZ := l
    displays := d
    colorMatrixChanged := true
    colorMatrix := m }

/-- `State::operator=` (SurfaceFlinger.h:406-416): copies `layersSortedByZ`,
`displays` and `colorMatrixChanged` from `src`, copies `colorMatrix` only when
`src.colorMatrixChanged` is set, and deliberately does not copy `stateSet`. -/
def State.assign {α β γ : Type} (dst src : State α β γ) : State α β γ :=
  { dst with
    layersSortedByZ := src.layersSortedByZ
    displays := src.displays
    colorMatrixChanged := src.colorMatrixChanged
    colorMatrix := if src.colorMatrixChanged then src.colorMatrix else dst.colorMatrix }

/-- The two snapshot fields of `SurfaceFlinger` relevant to the double-buffered
scene state: `mCurrentState` (SurfaceFlinger.h:854) and `mDrawingState`
(SurfaceFlinger.h:892). -/
structure SceneSnapshots (α β γ : Type) where
  mCurrentState : State α β γ
  mDrawingState : State α β γ
deriving DecidableEq, Repr

/-- The snapshots as the `SurfaceFlinger` constructor builds them:
`mCurrentState{LayerVector::StateSet::Current}` and
`mDrawingState{LayerVector::StateSet::Drawing}`. -/
def SceneSnapshots.construct {α β γ : Type} (l : α) (d : β) (m : γ) : SceneSnapshots α β γ :=
  { mCurrentState := State.ofSet StateSet.Current l d m
    mDrawingState := State.ofSet StateSet.Drawing l d m }

/-- One observable mutation of the double-buffered scene state: either a
transaction commit (`commitTransaction` does `mDrawingState = mCurrentState`
through `State::operator=`), or a content mutation of `mCurrentState`'s
non-const fields (transactions edit layers, displays and the color matrix, but
`stateSet` is `const` and cannot be written). -/
inductive SceneStep (α β γ : Type) where
  | commit
  | mutateCurrent (fl : α → α) (fd : β → β) (fc : Bool → Bool) (fm : γ → γ)

/-- Applies one `SceneStep` to the pair of snapshots. -/
def SceneSnapshots.applyStep {α β γ : Type} (s : SceneSnapshots α β γ) :
    SceneStep α β γ → SceneSnapshots α β γ
  | SceneStep.commit =>
      { s with mDrawingState := State.assign s.mDrawingState s.mCurrentState }
  | SceneStep.mutateCurrent fl fd fc fm =>
      { s with
        mCurrentState :=
          { s.mCurrentState with
            layersSortedByZ := fl s.mCurrentState.layersSortedByZ
            displays := fd s.mCurrentState.displays
            colorMatrixChanged := fc s.mCurrentState.colorMatrixChanged
            colorMatrix := fm s.mCurrentState.colorMatrix } }

/-- Runs a sequence of scene steps. -/
def SceneSnapshots.run {α β γ : Type} (s : SceneSnapshots α β γ)
    (steps : List (SceneStep α β γ)) : SceneSnapshots α β γ :=
  steps.foldl SceneSnapshots.applyStep s

theorem State.assign_stateSet {α β γ : Type} (dst src : State α β γ) :
    (State.assign dst src).stateSet = dst.stateSet := rfl

theorem SceneSnapshots.applyStep_stateSets {α β γ : Type} (s : SceneSnapshots α β γ)
    (step : SceneStep α β γ) :
    (s.applyStep step).mCurrentState.stateSet = s.mCurrentState.stateSet ∧
    (s.applyStep step).mDrawingState.stateSet = s.mDrawingState.stateSet := by
  cases step <;> exact ⟨rfl, rfl⟩

theorem SceneSnapshots.run_stateSets {α β γ : Type} (s : SceneSnapshots α β γ)
    (steps : List (SceneStep α β γ)) :
    (s.run steps).mCurrentState.stateSet = s.mCurrentState.stateSet ∧
    (s.run steps).mDrawingState.stateSet = s.mDrawingState.stateSet := by
  induction steps generalizing s with
  | nil => exact ⟨rfl, rfl⟩
  | cons step rest ih =>
      have h := SceneSnapshots.applyStep_stateSets s step
      have h' := ih (s.applyStep step)
      exact ⟨h'.1.trans h.1, h'.2.trans h.2⟩

/-- C1: during a transaction commit the drawing snapshot is overwritten
wholesale from the current snapshot through `State::operator=`: the layer
list, display table and `colorMatrixChanged` flag become equal to the source's,
and the color matrix is copied exactly when the source's `colorMatrixChanged`
flag is set (when it is clear, the destination matrix is left whole, not
partially updated). -/
theorem commit_overwrites_drawing_wholesale {α β γ : Type} (cur drw : State α β γ) :
    (State.assign drw cur).layersSortedByZ = cur.layersSortedByZ ∧
    (State.assign drw cur).displays = cur.displays ∧
    (State.assign drw cur).colorMatrixChanged = cur.colorMatrixChanged ∧
    (cur.colorMatrixChanged = true → (State.assign drw cur).colorMatrix = cur.colorMatrix) ∧
    (cur.colorMatrixChanged = false → (State.assign drw cur).colorMatrix = drw.colorMatrix) := by
  refine ⟨rfl, rfl, rfl, ?_, ?_⟩ <;> intro h <;> simp [State.assign, h]

theorem commit_overwrites_drawing_wholesale_witness :
    let cur : State Nat Nat Nat := State.ofSet StateSet.Current 3 4 5
    let drw : State Nat Nat Nat := State.ofSet StateSet.Drawing 0 1 2
    (State.assign drw cur).layersSortedByZ = cur.layersSortedByZ ∧
    (State.assign drw cur).displays = cur.displays ∧
    (State.assign drw cur).colorMatrixChanged = cur.colorMatrixChanged ∧
    (cur.colorMatrixChanged = true → (State.assign drw cur).colorMatrix = cur.colorMatrix) ∧
    (cur.colorMatrixChanged = false → (State.assign drw cur).colorMatrix = drw.colorMatrix) :=
  commit_overwrites_drawing_wholesale
    (State.ofSet StateSet.Current 3 4 5) (State.ofSet StateSet.Drawing 0 1 2)

/-- C2: a `State`'s which-set tag never changes over its lifetime: it is fixed
at construction, `State::operator=` never copies it, and therefore after any
sequence of commits and current-state content mutations `mCurrentState` still
carries the `Current` tag and `mDrawingState` still carries the `Drawing`
tag. -/
theorem stateSet_never_changes {α β γ : Type} (l : α) (d : β) (m : γ)
    (steps : List (SceneStep α β γ)) :
    ((SceneSnapshots.construct l d m).run steps).mCurrentState.stateSet = StateSet.Current ∧
    ((SceneSnapshots.construct l d m).run steps).mDrawingState.stateSet = StateSet.Drawing := by
  have h := SceneSnapshots.run_stateSets (SceneSnapshots.construct l d m) steps
  exact ⟨h.1.trans rfl, h.2.trans rfl⟩

/-- Modelled from the spec: the DispSync / EventThread scheduling code that realizes the
phase-offset latency bound is not part of the examined header; only the documentation
formula `2 * VSYNC_PERIOD - (vsyncPhaseOffsetNs % VSYNC_PERIOD)` next to
`vsyncPhaseOffsetNs` (SurfaceFlinger.h:242-262) is.  `%` is the C++ signed remainder,
which truncates toward zero, i.e. `Int.tmod`. -/
def minContentToDisplayLatency (period phase : Int) : Int :=
  2 * period - Int.tmod phase period

/-- C3: for every period `T > 0` and signed phase offset `φ`, the minimum
content-update-to-display latency is `2T − (φ mod T)` with `mod` read as the C++
remainder of the source comment; for `0 ≤ φ < T` this is `2T − φ`, at `φ = 0` it is the
two-period floor, it always exceeds one period for nonnegative offsets, and for
`T = 16_666_667` ns it evaluates to `25_000_001` ns at `φ = T/2` and to `37_500_000` ns
at `φ = −T/4`. -/
theorem vsync_latency_floor (T φ : Int) (hT : 0 < T) :
    minContentToDisplayLatency T φ = 2 * T - Int.tmod φ T ∧
    (0 ≤ φ → φ < T → minContentToDisplayLatency T φ = 2 * T - φ) ∧
    minContentToDisplayLatency T 0 = 2 * T ∧
    (0 ≤ φ → T < minContentToDisplayLatency T φ) ∧
    minContentToDisplayLatency 16666667 (16666667 / 2) = 25000001 ∧
    minContentToDisplayLatency 16666667 (-(16666667 / 4)) = 37500000 := by
  refine ⟨rfl, ?_, ?_, ?_, by decide, by decide⟩
  · intro h0 hφ
    unfold minContentToDisplayLatency
    rw [Int.tmod_eq_of_lt h0 hφ]
  · simp [minContentToDisplayLatency]
  · intro _
    have h1 : Int.tmod φ T < T := Int.tmod_lt_of_pos φ hT
    unfold minContentToDisplayLatency
    omega

theorem vsync_latency_floor_witness :
    minContentToDisplayLatency 16666667 0 = 2 * 16666667 - Int.tmod 0 16666667 ∧
    (0 ≤ (0 : Int) → (0 : Int) < 16666667 →
      minContentToDisplayLatency 16666667 0 = 2 * 16666667 - 0) ∧
    minContentToDisplayLatency 16666667 0 = 2 * 16666667 ∧
    (0 ≤ (0 : Int) → 16666667 < minContentToDisplayLatency 16666667 0) ∧
    minContentToDisplayLatency 16666667 (16666667 / 2) = 25000001 ∧
    minContentToDisplayLatency 16666667 (-(16666667 / 4)) = 37500000 :=
  vsync_latency_floor 16666667 0 (by decide)

/-- The transaction-needed flag bits and their mask (SurfaceFlinger.h:129-135). -/
def eTransactionNeeded : Nat := 0x01

/-- `eTraversalNeeded` (SurfaceFlinger.h:131). -/
def eTraversalNeeded : Nat := 0x02

/-- `eDisplayTransactionNeeded` (SurfaceFlinger.h:132). -/
def eDisplayTransactionNeeded : Nat := 0x04

/-- `eDisplayLayerStackChanged` (SurfaceFlinger.h:133). -/
def eDisplayLayerStackChanged : Nat := 0x08

/-- `eTransactionMask` (SurfaceFlinger.h:134). -/
def eTransactionMask : Nat := 0x0f

/-- Modelled from the spec: the body of `setTransactionFlags` (SurfaceFlinger.cpp) is not
part of the examined header; per the spec, enqueuing a transaction merges its change
kinds into the pending set by OR-ing the change bitmask into the pending-change word
(`mTransactionFlags`, SurfaceFlinger.h:855). -/
def setTransactionFlags (pending flags : Nat) : Nat := pending ||| flags

theorem lor_land_distribR (a b c : Nat) :
    (a ||| b) &&& c = (a &&& c) ||| (b &&& c) := by
  apply Nat.eq_of_testBit_eq
  intro i
  simp only [Nat.testBit_and, Nat.testBit_or]
  cases a.testBit i <;> cases b.testBit i <;> cases c.testBit i <;> rfl

/-- C4: enqueuing a transaction ORs its change kinds into the pending-change bitmask;
the union of the declared transaction-needed flags is `eTransactionMask = 0x0f`, OR-ing
flags within the mask keeps the pending bitmask within the mask, and OR-ing an identical
flag set a second time leaves the pending bitmask unchanged. -/
theorem setTransactionFlags_mask_idem (pending flags : Nat)
    (hp : pending &&& eTransactionMask = pending)
    (hf : flags &&& eTransactionMask = flags) :
    (eTransactionNeeded ||| eTraversalNeeded ||| eDisplayTransactionNeeded |||
      eDisplayLayerStackChanged) = eTransactionMask ∧
    setTransactionFlags pending flags &&& eTransactionMask = setTransactionFlags pending flags ∧
    setTransactionFlags (setTransactionFlags pending flags) flags =
      setTransactionFlags pending flags := by
  refine ⟨by decide, ?_, ?_⟩
  · unfold setTransactionFlags
    rw [lor_land_distribR, hp, hf]
  · unfold setTransactionFlags
    rw [Nat.lor_assoc, Nat.or_self]

theorem setTransactionFlags_mask_idem_witness :
    (eTransactionNeeded ||| eTraversalNeeded ||| eDisplayTransactionNeeded |||
      eDisplayLayerStackChanged) = eTransactionMask ∧
    setTransactionFlags 5 3 &&& eTransactionMask = setTransactionFlags 5 3 ∧
    setTransactionFlags (setTransactionFlags 5 3) 3 = setTransactionFlags 5 3 :=
  setTransactionFlags_mask_idem 5 3 (by decide) (by decide)

/-- `MAX_LAYERS` (SurfaceFlinger.h:394). -/
def MAX_LAYERS : Nat := 4096

/-- Initial value of `mMaxGraphicBufferProducerListSize` (SurfaceFlinger.h:868): the
graphic-buffer-producer list is bounded by `MAX_LAYERS`. -/
def mMaxGraphicBufferProducerListSize : Nat := MAX_LAYERS

/-- Result status of layer creation: success or the capacity-exceeded error
(`NO_MEMORY`). -/
inductive CreateStatus where
  | NO_ERROR
  | NO_MEMORY
deriving DecidableEq, Repr

/-- Modelled from the spec: the body of `createLayer` (SurfaceFlinger.cpp) is not part of
the examined header, which declares it (SurfaceFlinger.h:568-571); per the spec, when the
number of existing layers has reached the fixed capacity the call fails synchronously
with a capacity-exceeded error and creates no partial layer, and below capacity a layer
is created.  The state modelled is the layer count `mNumLayers` (SurfaceFlinger.h:974);
the result pairs the returned status with the updated count. -/
def createLayer (mNumLayers : Nat) : CreateStatus × Nat :=
  if MAX_LAYERS ≤ mNumLayers then (CreateStatus.NO_MEMORY, mNumLayers)
  else (CreateStatus.NO_ERROR, mNumLayers + 1)

/-- C5: layer creation at capacity (`MAX_LAYERS = 4096`, which also bounds the
graphic-buffer-producer list) fails synchronously with the capacity-exceeded error and
leaves the layer count unchanged (no partial layer); below capacity the capacity error is
never returned. -/
theorem createLayer_capacity (n : Nat) :
    MAX_LAYERS = 4096 ∧
    mMaxGraphicBufferProducerListSize = MAX_LAYERS ∧
    (MAX_LAYERS ≤ n → createLayer n = (CreateStatus.NO_MEMORY, n)) ∧
    (n < MAX_LAYERS → (createLayer n).1 ≠ CreateStatus.NO_MEMORY) := by
  refine ⟨rfl, rfl, ?_, ?_⟩
  · intro h
    simp [createLayer, h]
  · intro h
    simp [createLayer, Nat.not_le.mpr h]

theorem createLayer_capacity_witness :
    MAX_LAYERS = 4096 ∧
    mMaxGraphicBufferProducerListSize = MAX_LAYERS ∧
    (MAX_LAYERS ≤ 4096 → createLayer 4096 = (CreateStatus.NO_MEMORY, 4096)) ∧
    (4096 < MAX_LAYERS → (createLayer 4096).1 ≠ CreateStatus.NO_MEMORY) :=
  createLayer_capacity 4096

/-- A screen-space region, as a finite set of pixel coordinates. -/
abbrev Region := Finset (Int × Int)

/-- Modelled from the spec: the `Layer` class is not part of the examined header; for the
visibility computation a layer is characterized by its layer stack, its screen-space
footprint and whether it is opaque. -/
structure ModelLayer where
  layerStack : Nat
  footprint : Region
  isOpaque : Bool

/-- Modelled from the spec: `computeVisibleRegions` is only declared in the examined
header (SurfaceFlinger.h:697-698); per the spec it walks the drawing snapshot's
depth-ordered layers front-to-back, accumulating the union of the footprints of opaque
layers seen so far on the display's layer stack; each on-stack layer's visible region is
its footprint minus that accumulated coverage, and layers on other layer stacks are
skipped.  `covered` is the coverage accumulated so far. -/
def computeVisibleRegionsAux (stack : Nat) : List ModelLayer → Region → List Region
  | [], _ => []
  | l :: rest, covered =>
    if l.layerStack = stack then
      (l.footprint \ covered) ::
        computeVisibleRegionsAux stack rest
          (if l.isOpaque then covered ∪ l.footprint else covered)
    else
      computeVisibleRegionsAux stack rest covered

/-- The visible regions of the on-stack layers, front-to-back. -/
def computeVisibleRegions (stack : Nat) (layers : List ModelLayer) : List Region :=
  computeVisibleRegionsAux stack layers ∅

/-- The union of the footprints of the opaque layers on `stack` among `front`. -/
def coveredInFront (stack : Nat) (front : List ModelLayer) : Region :=
  front.foldl
    (fun r l => if l.layerStack = stack ∧ l.isOpaque = true then r ∪ l.footprint else r) ∅

/-- The per-layer visible regions written directly from the spec's sentence, for
comparison with the accumulating traversal: a layer's visible region is its footprint
minus the union of the opaque footprints of the layers strictly in front of it on the
same layer stack (`front` is the list of layers already passed). -/
def specVisibleRegions (stack : Nat) : List ModelLayer → List ModelLayer → List Region
  | _, [] => []
  | front, l :: rest =>
    if l.layerStack = stack then
      (l.footprint \ coveredInFront stack front) ::
        specVisibleRegions stack (front ++ [l]) rest
    else
      specVisibleRegions stack (front ++ [l]) rest

theorem coveredInFront_append_one (stack : Nat) (front : List ModelLayer) (l : ModelLayer) :
    coveredInFront stack (front ++ [l]) =
      if l.layerStack = stack ∧ l.isOpaque = true then
        coveredInFront stack front ∪ l.footprint
      else coveredInFront stack front := by
  unfold coveredInFront
  rw [List.foldl_append]
  rfl

theorem computeVisibleRegionsAux_eq_spec (stack : Nat) (rest front : List ModelLayer) :
    computeVisibleRegionsAux stack rest (coveredInFront stack front) =
      specVisibleRegions stack front rest := by
  induction rest generalizing front with
  | nil => rfl
  | cons l rest ih =>
      unfold computeVisibleRegionsAux specVisibleRegions
      by_cases h : l.layerStack = stack
      · simp only [h, if_true]
        have hacc :
            (if l.isOpaque then coveredInFront stack front ∪ l.footprint
              else coveredInFront stack front) =
            coveredInFront stack (front ++ [l]) := by
          rw [coveredInFront_append_one]
          cases hop : l.isOpaque <;> simp [h, hop]
        rw [hacc, ih (front ++ [l])]
      · simp only [h, if_false]
        have hacc : coveredInFront stack front = coveredInFront stack (front ++ [l]) := by
          rw [coveredInFront_append_one]
          simp [h]
        rw [hacc, ih (front ++ [l])]

/-- C6: the visible region computed for each layer is its screen-space footprint minus
the union of the opaque footprints of the layers strictly in front of it on the same
layer stack; consequently, for an opaque full-screen layer placed behind a second
identical opaque full-screen layer, the back layer's visible region is empty. -/
theorem computeVisibleRegions_spec (stack : Nat) (layers : List ModelLayer)
    (screen : Region) :
    computeVisibleRegions stack layers = specVisibleRegions stack [] layers ∧
    computeVisibleRegions 0
      [⟨0, screen, true⟩, ⟨0, screen, true⟩] = [screen, ∅] := by
  constructor
  · have h := computeVisibleRegionsAux_eq_spec stack layers []
    simpa [computeVisibleRegions, coveredInFront] using h
  · simp [computeVisibleRegions, computeVisibleRegionsAux]

/-- `SurfaceFlingerBE::NUM_BUCKETS` (SurfaceFlinger.h:192): the number of frame-latency
buckets of `mFrameBuckets`, covering < 1 through 7 periods plus a 7+ overflow bucket. -/
def NUM_BUCKETS : Nat := 8

/-- Modelled from the spec: the frame-classification code (SurfaceFlinger.cpp) is not
part of the examined header; per the spec each completed frame falls into exactly one of
the `NUM_BUCKETS` latency buckets: a frame spanning `n` whole refresh periods lands in
bucket `n` when `n < 7`, and anything longer in the 7+ overflow bucket. -/
def frameBucket (elapsed period : Nat) : Nat :=
  min (elapsed / period) (NUM_BUCKETS - 1)

/-- `SurfaceFlingerBE::BufferingStats` (SurfaceFlinger.h:201-219): the double- vs.
triple-buffering statistics of one layer name. -/
structure BufferingStats where
  numSegments : Nat
  totalTime : Int
  twoBufferTime : Int
  doubleBufferedTime : Int
  tripleBufferedTime : Int
deriving DecidableEq, Repr

/-- The `BufferingStats()` constructor (SurfaceFlinger.h:202-207): all counters zero. -/
def BufferingStats.initial : BufferingStats := ⟨0, 0, 0, 0, 0⟩

/-- Modelled from the spec: one `OccupancyTracker::Segment` of a scene segment's
buffer-occupancy history (the tracker is not part of the examined header): the segment's
duration, whether a third buffer was ever used, and the average number of occupied
buffers (a rational standing in for the implementation's floating-point average). -/
structure Segment where
  totalTime : Int
  usedThirdBuffer : Bool
  occupancyAverage : ℚ

/-- Modelled from the spec: `recordBufferingStats` (declared SurfaceFlinger.h:822-823;
body in SurfaceFlinger.cpp) apportions each scene segment's duration among the
two-buffer, double-buffered and triple-buffered times of `BufferingStats`
(SurfaceFlinger.h:210-218): the duration counts as two-buffer time when a third buffer
was never used, as double-buffered time when the segment used about two buffers on
average, and as triple-buffered time when it used about three; segment count and total
time always grow by the segment. -/
def recordSegment (stats : BufferingStats) (s : Segment) : BufferingStats :=
  { numSegments := stats.numSegments + 1
    totalTime := stats.totalTime + s.totalTime
    twoBufferTime :=
      if s.usedThirdBuffer then stats.twoBufferTime else stats.twoBufferTime + s.totalTime
    doubleBufferedTime :=
      if s.occupancyAverage < 3 / 2 then stats.doubleBufferedTime + s.totalTime
      else stats.doubleBufferedTime
    tripleBufferedTime :=
      if 3 / 2 ≤ s.occupancyAverage ∧ s.occupancyAverage < 5 / 2 then
        stats.tripleBufferedTime + s.totalTime
      else stats.tripleBufferedTime }

/-- C7: every completed frame is classified into exactly one of the `NUM_BUCKETS = 8`
latency buckets — frames under 7 periods land in the bucket of their whole-period count
and longer frames in the 7+ overflow bucket — and each scene segment is apportioned into
the double/triple-buffering statistics: its duration goes to the two-buffer time exactly
when no third buffer was used, to the double-buffered time when the average occupancy is
about two buffers, and to the triple-buffered time when it is about three. -/
theorem frame_buckets_and_buffering (elapsed period : Nat) (stats : BufferingStats)
    (s : Segment) :
    NUM_BUCKETS = 8 ∧
    frameBucket elapsed period < NUM_BUCKETS ∧
    (elapsed / period < 7 → frameBucket elapsed period = elapsed / period) ∧
    (7 ≤ elapsed / period → frameBucket elapsed period = 7) ∧
    (recordSegment stats s).numSegments = stats.numSegments + 1 ∧
    (recordSegment stats s).totalTime = stats.totalTime + s.totalTime ∧
    ((recordSegment stats s).twoBufferTime =
      if s.usedThirdBuffer then stats.twoBufferTime else stats.twoBufferTime + s.totalTime) ∧
    (s.occupancyAverage < 3 / 2 →
      (recordSegment stats s).doubleBufferedTime = stats.doubleBufferedTime + s.totalTime ∧
      (recordSegment stats s).tripleBufferedTime = stats.tripleBufferedTime) ∧
    (3 / 2 ≤ s.occupancyAverage → s.occupancyAverage < 5 / 2 →
      (recordSegment stats s).tripleBufferedTime = stats.tripleBufferedTime + s.totalTime ∧
      (recordSegment stats s).doubleBufferedTime = stats.doubleBufferedTime) := by
  refine ⟨rfl, ?_, ?_, ?_, rfl, rfl, rfl, ?_, ?_⟩
  · unfold frameBucket NUM_BUCKETS
    omega
  · intro h
    unfold frameBucket NUM_BUCKETS
    omega
  · intro h
    unfold frameBucket NUM_BUCKETS
    omega
  · intro h
    constructor
    · simp [recordSegment, h]
    · have h' : ¬ (3 / 2 ≤ s.occupancyAverage ∧ s.occupancyAverage < 5 / 2) := by
        rintro ⟨h1, -⟩
        exact absurd h (not_lt.mpr h1)
      simp [recordSegment, h']
  · intro h1 h2
    constructor
    · simp [recordSegment, h1, h2]
    · simp [recordSegment, not_lt.mpr h1]

theorem frame_buckets_and_buffering_witness :
    NUM_BUCKETS = 8 ∧
    frameBucket 10 3 < NUM_BUCKETS ∧
    (10 / 3 < 7 → frameBucket 10 3 = 10 / 3) ∧
    (7 ≤ 10 / 3 → frameBucket 10 3 = 7) ∧
    (recordSegment BufferingStats.initial ⟨100, false, 1⟩).numSegments =
      BufferingStats.initial.numSegments + 1 ∧
    (recordSegment BufferingStats.initial ⟨100, false, 1⟩).totalTime =
      BufferingStats.initial.totalTime + (100 : Int) ∧
    ((recordSegment BufferingStats.initial ⟨100, false, 1⟩).twoBufferTime =
      if false then BufferingStats.initial.twoBufferTime
      else BufferingStats.initial.twoBufferTime + (100 : Int)) ∧
    ((1 : ℚ) < 3 / 2 →
      (recordSegment BufferingStats.initial ⟨100, false, 1⟩).doubleBufferedTime =
        BufferingStats.initial.doubleBufferedTime + (100 : Int) ∧
      (recordSegment BufferingStats.initial ⟨100, false, 1⟩).tripleBufferedTime =
        BufferingStats.initial.tripleBufferedTime) ∧
    (3 / 2 ≤ (1 : ℚ) → (1 : ℚ) < 5 / 2 →
      (recordSegment BufferingStats.initial ⟨100, false, 1⟩).tripleBufferedTime =
        BufferingStats.initial.tripleBufferedTime + (100 : Int) ∧
      (recordSegment BufferingStats.initial ⟨100, false, 1⟩).doubleBufferedTime =
        BufferingStats.initial.doubleBufferedTime) :=
  frame_buckets_and_buffering 10 3 BufferingStats.initial ⟨100, false, 1⟩

/-- Outcome of a texture-name request: the returned name, the remaining pool, and whether
a synchronous message had to be posted to the main thread. -/
structure TextureRequestOutcome where
  name : Nat
  remaining : List Nat
  postedSyncMessage : Bool
deriving DecidableEq, Repr

/-- Modelled from the spec: the body of `getNewTexture` (SurfaceFlinger.cpp) is not part
of the examined header, which declares it with the comment "Obtains a name from the
texture pool, or, if the pool is empty, posts a synchronous message to the main thread to
obtain one on the fly" (SurfaceFlinger.h:345-347).  The pool is `mTexturePool`, guarded
by its own `mTexturePoolMutex` independent of the global `mStateLock`
(SurfaceFlinger.h:959-963).  `freshName` stands for the name the main thread would
generate on the fly. -/
def getNewTexture (mTexturePool : List Nat) (freshName : Nat) : TextureRequestOutcome :=
  match mTexturePool with
  | [] => ⟨freshName, [], true⟩
  | n :: rest => ⟨n, rest, false⟩

/-- C8: when the pre-allocated texture pool is non-empty, `getNewTexture` returns a name
taken from the pool (the pool shrinks by one) with no main-thread round-trip; only when
the pool is empty does it post a synchronous message to the main thread. -/
theorem getNewTexture_pool (pool : List Nat) (fresh : Nat) :
    (pool ≠ [] →
      (getNewTexture pool fresh).postedSyncMessage = false ∧
      (getNewTexture pool fresh).name ∈ pool ∧
      (getNewTexture pool fresh).remaining.length + 1 = pool.length) ∧
    (pool = [] → (getNewTexture pool fresh).postedSyncMessage = true) := by
  cases pool with
  | nil =>
      exact ⟨fun h => absurd rfl h, fun _ => rfl⟩
  | cons n rest =>
      refine ⟨fun _ => ⟨rfl, ?_, rfl⟩, fun h => by cases h⟩
      simp [getNewTexture]

theorem getNewTexture_pool_witness :
    (([7, 9] : List Nat) ≠ [] →
      (getNewTexture [7, 9] 0).postedSyncMessage = false ∧
      (getNewTexture [7, 9] 0).name ∈ ([7, 9] : List Nat) ∧
      (getNewTexture [7, 9] 0).remaining.length + 1 = ([7, 9] : List Nat).length) ∧
    (([7, 9] : List Nat) = [] → (getNewTexture [7, 9] 0).postedSyncMessage = true) :=
  getNewTexture_pool [7, 9] 0

/-- A binder token identifying a display (`wp<IBinder>` / `sp<IBinder>`). -/
abbrev Token := Nat

/-- A stable physical display id (`DisplayId`). -/
abbrev DisplayId := Nat

/-- An opaque display device (`sp<DisplayDevice>`); nullness is carried by `Option`. -/
abbrev DisplayDevice := Nat

/-- The display tables of `SurfaceFlinger` used by the identity lookups: `mDisplays`
(SurfaceFlinger.h:916, a `std::map` from token to device), `mPhysicalDisplayTokens`
(SurfaceFlinger.h:886, a map from `DisplayId` to token), and the internal display id the
hardware composer reports (`getInternalDisplayId`, SurfaceFlinger.h:798-801, whose
composer source is external).  The maps are modelled as association lists. -/
structure DisplayTables where
  mDisplays : List (Token × DisplayDevice)
  mPhysicalDisplayTokens : List (DisplayId × Token)
  internalDisplayId : Option DisplayId
deriving DecidableEq, Repr

/-- `getDisplayDeviceLocked` (SurfaceFlinger.h:667-670): looks the token up in
`mDisplays` and returns null (`none`) when it is absent. -/
def getDisplayDeviceLocked (sf : DisplayTables) (tok : Token) : Option DisplayDevice :=
  (sf.mDisplays.find? (fun p => p.1 == tok)).map Prod.snd

/-- `getPhysicalDisplayToken` (SurfaceFlinger.h:778-781): looks the id up in
`mPhysicalDisplayTokens` and returns null when it is absent. -/
def getPhysicalDisplayToken (sf : DisplayTables) (id : DisplayId) : Option Token :=
  (sf.mPhysicalDisplayTokens.find? (fun p => p.1 == id)).map Prod.snd

/-- `getPhysicalDisplayId` (SurfaceFlinger.h:783-790): scans `mPhysicalDisplayTokens` for
an entry whose token equals the given one and returns its id, or an empty optional. -/
def getPhysicalDisplayId (sf : DisplayTables) (tok : Token) : Option DisplayId :=
  (sf.mPhysicalDisplayTokens.find? (fun p => p.2 == tok)).map Prod.fst

/-- `getInternalDisplayToken` (SurfaceFlinger.h:793-796): the token of the internal
physical display, or null when the composer reports no internal display id or that id has
no token. -/
def getInternalDisplayToken (sf : DisplayTables) : Option Token :=
  sf.internalDisplayId.bind (getPhysicalDisplayToken sf)

/-- `getDefaultDisplayDeviceLocked` (SurfaceFlinger.h:676-681): the device registered for
the internal display token, or null when there is no internal display token. -/
def getDefaultDisplayDeviceLocked (sf : DisplayTables) : Option DisplayDevice :=
  (getInternalDisplayToken sf).bind (getDisplayDeviceLocked sf)

/-- C9: every display lookup by identity with no match returns an empty result rather
than failing: `getDisplayDeviceLocked` returns null for a token not in `mDisplays`,
`getPhysicalDisplayToken` returns null for an unmapped `DisplayId`,
`getPhysicalDisplayId` returns an empty optional when no mapped token equals the given
one, and `getDefaultDisplayDeviceLocked` returns null when no internal display token
exists. -/
theorem display_lookups_miss_empty (sf : DisplayTables) (tok : Token) (id : DisplayId)
    (htok : ∀ p ∈ sf.mDisplays, p.1 ≠ tok)
    (hid : ∀ p ∈ sf.mPhysicalDisplayTokens, p.1 ≠ id)
    (hval : ∀ p ∈ sf.mPhysicalDisplayTokens, p.2 ≠ tok)
    (hint : getInternalDisplayToken sf = none) :
    getDisplayDeviceLocked sf tok = none ∧
    getPhysicalDisplayToken sf id = none ∧
    getPhysicalDisplayId sf tok = none ∧
    getDefaultDisplayDeviceLocked sf = none := by
  have h1 : sf.mDisplays.find? (fun p => p.1 == tok) = none :=
    List.find?_eq_none.mpr (fun x hx => by simpa using htok x hx)
  have h2 : sf.mPhysicalDisplayTokens.find? (fun p => p.1 == id) = none :=
    List.find?_eq_none.mpr (fun x hx => by simpa using hid x hx)
  have h3 : sf.mPhysicalDisplayTokens.find? (fun p => p.2 == tok) = none :=
    List.find?_eq_none.mpr (fun x hx => by simpa using hval x hx)
  refine ⟨?_, ?_, ?_, ?_⟩
  · simp [getDisplayDeviceLocked, h1]
  · simp [getPhysicalDisplayToken, h2]
  · simp [getPhysicalDisplayId, h3]
  · simp [getDefaultDisplayDeviceLocked, hint]

theorem display_lookups_miss_empty_witness :
    let sf : DisplayTables := ⟨[(1, 10)], [(2, 1)], none⟩
    getDisplayDeviceLocked sf 5 = none ∧
    getPhysicalDisplayToken sf 7 = none ∧
    getPhysicalDisplayId sf 5 = none ∧
    getDefaultDisplayDeviceLocked sf = none :=
  display_lookups_miss_empty ⟨[(1, 10)], [(2, 1)], none⟩ 5 7
    (by decide) (by decide) (by decide) (by decide)

/-- C10: round-trip of physical display identity: when a `DisplayId` is mapped in
`mPhysicalDisplayTokens` (so `getPhysicalDisplayToken` yields its token) and no two ids
map to the same token, `getPhysicalDisplayId` applied to that token returns exactly that
id. -/
theorem physicalDisplay_roundtrip (sf : DisplayTables) (id : DisplayId) (tok : Token)
    (hinj : ∀ p ∈ sf.mPhysicalDisplayTokens, ∀ q ∈ sf.mPhysicalDisplayTokens,
      p.2 = q.2 → p.1 = q.1)
    (hmap : getPhysicalDisplayToken sf id = some tok) :
    getPhysicalDisplayId sf tok = some id := by
  unfold getPhysicalDisplayToken at hmap
  rw [Option.map_eq_some'] at hmap
  obtain ⟨e, hfind, hsnd⟩ := hmap
  have he_mem := List.mem_of_find?_eq_some hfind
  have he_key : e.1 = id := by simpa using List.find?_some hfind
  cases hfind2 : sf.mPhysicalDisplayTokens.find? (fun p => p.2 == tok) with
  | none =>
      exfalso
      have := List.find?_eq_none.mp hfind2 e he_mem
      simp [hsnd] at this
  | some q =>
      have hq_mem := List.mem_of_find?_eq_some hfind2
      have hq_val : q.2 = tok := by simpa using List.find?_some hfind2
      have hq_key : q.1 = id := by
        have := hinj q hq_mem e he_mem (hq_val.trans hsnd.symm)
        rw [this, he_key]
      simp [getPhysicalDisplayId, hfind2, hq_key]

theorem physicalDisplay_roundtrip_witness :
    getPhysicalDisplayId ⟨[], [(2, 9), (4, 11)], none⟩ 9 = some 2 :=
  physicalDisplay_roundtrip ⟨[], [(2, 9), (4, 11)], none⟩ 2 9 (by decide) (by decide)
